import Mathlib

/-!
Formal model of the core logic of `chatbot.py` (career-advice chatbot):
the career recommendation scorer (`generate_career_recommendations`),
the keyword classifier (`is_career_related_question`),
the streaming relay (`get_ollama_response_stream`),
the conversation context builder (the prompt assembly inside
`get_ollama_response_stream`), and the resume-analysis JSON extractor
(the extraction logic inside `analyze_resume`).

Python strings are modelled as Lean `String`s; Python `str.lower()` is
modelled with `Char.toLower` (ASCII lowering; every keyword in the fixed
vocabulary is ASCII).  Python dicts that are used as static lookup tables
are modelled as association lists looked up with `List.lookup`; none of
the modelled tables has two distinct bindings for the same key.
-/

namespace Chatbot

/-! ## Recommendation scorer (`generate_career_recommendations`, chatbot.py lines 580-752) -/

/-- The questionnaire answers passed to `generate_career_recommendations`
(the `assessment_data` dict built at chatbot.py lines 558-565). -/
structure AssessmentData where
  interests : List String
  technical_skills : List String
  work_style : String
  team_size : String
  career_focus : String
  risk_tolerance : String
deriving DecidableEq, Repr

/-- `interest_career_map` (chatbot.py lines 588-599). -/
def interest_career_map : List (String × List String) := [
  ("Technology", ["Software Developer", "IT Manager", "Data Scientist", "Cybersecurity Analyst"]),
  ("Healthcare", ["Registered Nurse", "Healthcare Administrator", "Medical Technician", "Physical Therapist"]),
  ("Education", ["Teacher", "Education Administrator", "Curriculum Developer", "Corporate Trainer"]),
  ("Business", ["Business Analyst", "Management Consultant", "Product Manager", "Operations Manager"]),
  ("Arts & Design", ["Graphic Designer", "UX/UI Designer", "Art Director", "Content Creator"]),
  ("Science", ["Research Scientist", "Lab Technician", "Environmental Scientist", "Biomedical Engineer"]),
  ("Engineering", ["Mechanical Engineer", "Civil Engineer", "Electrical Engineer", "Software Engineer"]),
  ("Finance", ["Financial Analyst", "Accountant", "Investment Banker", "Financial Advisor"]),
  ("Marketing", ["Marketing Manager", "Content Strategist", "Social Media Manager", "Brand Manager"]),
  ("Social Work", ["Social Worker", "Counselor", "Community Organizer", "Non-profit Manager"])]

/-- `skill_career_map` (chatbot.py lines 602-613). -/
def skill_career_map : List (String × List String) := [
  ("Programming", ["Software Developer", "Data Scientist", "Software Engineer", "Web Developer"]),
  ("Data Analysis", ["Data Scientist", "Business Analyst", "Market Research Analyst", "Financial Analyst"]),
  ("Project Management", ["Project Manager", "Product Manager", "Operations Manager", "Management Consultant"]),
  ("Design", ["Graphic Designer", "UX/UI Designer", "Art Director", "Product Designer"]),
  ("Writing", ["Content Creator", "Technical Writer", "Copywriter", "Editor"]),
  ("Public Speaking", ["Corporate Trainer", "Sales Manager", "Public Relations Specialist", "Motivational Speaker"]),
  ("Research", ["Research Scientist", "Market Research Analyst", "Academic Researcher", "UX Researcher"]),
  ("Sales", ["Sales Manager", "Account Executive", "Business Development Manager", "Sales Representative"]),
  ("Customer Service", ["Customer Success Manager", "Customer Experience Manager", "Support Specialist", "Client Relations Manager"]),
  ("Leadership", ["Team Lead", "Department Manager", "Director", "Executive"])]

/-- Add the careers `cs` to the accumulator, skipping ones already present.
This models `potential_careers.update(...)` (chatbot.py lines 618-624): the
Python `set` is modelled as a duplicate-free list; its iteration order is
modelled as first-insertion order (CPython leaves the iteration order of a
`set` of strings unspecified; every claim proved below that depends on the
candidate enumeration is stated so that it holds for the enumeration the
model fixes). -/
def addCareers (acc : List String) (cs : List String) : List String :=
  cs.foldl (fun a c => if c ∈ a then a else a ++ [c]) acc

/-- The careers collected from the selected interests and skills
(chatbot.py lines 615-624). -/
def potentialCareers (a : AssessmentData) : List String :=
  let fromInterests := a.interests.foldl (fun acc i =>
    match interest_career_map.lookup i with
    | some cs => addCareers acc cs
    | none => acc) []
  a.technical_skills.foldl (fun acc sk =>
    match skill_career_map.lookup sk with
    | some cs => addCareers acc cs
    | none => acc) fromInterests

/-- The fixed default candidate list substituted when no interest or skill
produced a candidate (chatbot.py lines 626-628). -/
def defaultCareers : List String :=
  ["Project Manager", "Business Analyst", "Marketing Specialist", "Operations Manager"]

/-- The candidate careers that get scored (chatbot.py lines 626-633). -/
def candidateCareers (a : AssessmentData) : List String :=
  if potentialCareers a = [] then defaultCareers else potentialCareers a

/-- The `work_style` adjustment (chatbot.py lines 636-641). -/
def workStyleBonus (a : AssessmentData) (career : String) : Nat :=
  if a.work_style = "Fully Remote" ∧
      career ∈ ["Software Developer", "Data Scientist", "UX/UI Designer", "Content Creator"] then 20
  else if a.work_style = "Fully In-Office" ∧
      career ∈ ["Healthcare Administrator", "Teacher", "Mechanical Engineer", "Registered Nurse"] then 20
  else 0

/-- The `team_size` adjustment (chatbot.py lines 643-648). -/
def teamSizeBonus (a : AssessmentData) (career : String) : Nat :=
  if a.team_size = "Solo Work" ∧
      career ∈ ["Writer", "Research Scientist", "Graphic Designer"] then 15
  else if a.team_size = "Large Team (16-50)" ∧
      career ∈ ["Project Manager", "Operations Manager", "Product Manager"] then 15
  else 0

/-- The `career_focus` adjustment (chatbot.py lines 650-657). -/
def careerFocusBonus (a : AssessmentData) (career : String) : Nat :=
  if a.career_focus = "High Income" ∧
      career ∈ ["Investment Banker", "Software Engineer", "Management Consultant"] then 25
  else if a.career_focus = "Work-Life Balance" ∧
      career ∈ ["Technical Writer", "UX/UI Designer", "Data Analyst"] then 25
  else if a.career_focus = "Making an Impact" ∧
      career ∈ ["Social Worker", "Non-profit Manager", "Environmental Scientist"] then 25
  else 0

/-- The `risk_tolerance` adjustment (chatbot.py lines 659-664). -/
def riskToleranceBonus (a : AssessmentData) (career : String) : Nat :=
  if a.risk_tolerance = "Very Risk-Tolerant" ∧
      career ∈ ["Entrepreneur", "Investment Banker", "Management Consultant"] then 20
  else if a.risk_tolerance = "Very Risk-Averse" ∧
      career ∈ ["Accountant", "Government Administrator", "Teacher"] then 20
  else 0

/-- The score of one candidate: base 50 plus the four independent
conditional additions (chatbot.py lines 633-666). -/
def scoreCareer (a : AssessmentData) (career : String) : Nat :=
  50 + workStyleBonus a career + teamSizeBonus a career +
    careerFocusBonus a career + riskToleranceBonus a career

/-- The `career_scores` dict in its insertion order (chatbot.py lines
631-666): each candidate paired with its score, candidates in enumeration
order. -/
def careerScores (a : AssessmentData) : List (String × Nat) :=
  (candidateCareers a).map (fun c => (c, scoreCareer a c))

/-- The ordering used by `sorted(career_scores.items(), key=lambda x: x[1],
reverse=True)` at chatbot.py line 669: descending score.  Python's `sorted`
is stable, which `List.insertionSort` reproduces. -/
def scoreRel (p q : String × Nat) : Prop := q.2 ≤ p.2

instance : DecidableRel scoreRel := fun p q => Nat.decLe q.2 p.2

instance : IsTotal (String × Nat) scoreRel := ⟨fun p q => Nat.le_total q.2 p.2⟩

instance : IsTrans (String × Nat) scoreRel := ⟨fun _ _ _ h1 h2 => Nat.le_trans h2 h1⟩

/-- `sorted_careers` (chatbot.py line 669). -/
def sortedCareers (a : AssessmentData) : List (String × Nat) :=
  (careerScores a).insertionSort scoreRel

/-- One output record appended at chatbot.py lines 743-750. -/
structure Recommendation where
  career : String
  match_percentage : Nat
  description : String
  key_skills : List String
  salary_range : String
  growth_outlook : String
deriving DecidableEq, Repr

/-- The `descriptions` dict (chatbot.py lines 676-739).  The Python dict
literal binds the key "Operations Manager" twice with the identical value
(source lines 687 and 713); the model keeps both entries, and `List.lookup`
returns that shared value. -/
def descriptions : List (String × String) := [
  ("Software Developer", "Design, develop, and test software applications and systems."),
  ("Data Scientist", "Analyze complex data to help organizations make better decisions."),
  ("UX/UI Designer", "Create user-friendly interfaces and experiences for digital products."),
  ("Project Manager", "Plan, execute, and close projects, ensuring they meet deadlines and budgets."),
  ("Product Manager", "Guide the development of products from conception to launch."),
  ("Business Analyst", "Analyze business needs and find solutions to business problems."),
  ("Marketing Manager", "Develop and implement marketing strategies to promote products or services."),
  ("Financial Analyst", "Evaluate financial data to help businesses make investment decisions."),
  ("Graphic Designer", "Create visual concepts to communicate ideas through designs."),
  ("Technical Writer", "Create documentation that explains technical information in a clear way."),
  ("Operations Manager", "Oversee the production of goods and services in an organization."),
  ("Healthcare Administrator", "Manage healthcare facilities and ensure quality patient care."),
  ("Teacher", "Educate students and help them develop knowledge and skills."),
  ("Social Worker", "Help people cope with problems in their everyday lives."),
  ("Accountant", "Prepare and examine financial records and ensure taxes are paid properly."),
  ("Mechanical Engineer", "Design and develop mechanical devices and systems."),
  ("Research Scientist", "Conduct research to advance knowledge in their field."),
  ("Investment Banker", "Help companies raise capital and provide financial advisory services."),
  ("Management Consultant", "Advise organizations on how to improve performance and efficiency."),
  ("Environmental Scientist", "Study the environment and develop solutions to environmental problems."),
  ("Registered Nurse", "Provide patient care and educate patients about health conditions."),
  ("Content Creator", "Produce engaging content for various platforms and audiences."),
  ("Cybersecurity Analyst", "Protect computer systems and networks from cyber threats."),
  ("IT Manager", "Oversee the technology infrastructure of an organization."),
  ("Education Administrator", "Manage educational institutions and programs."),
  ("Art Director", "Oversee the visual style and images in publications, product packaging, and more."),
  ("Civil Engineer", "Design and supervise the construction of infrastructure projects."),
  ("Electrical Engineer", "Design, develop, and test electrical equipment and systems."),
  ("Financial Advisor", "Provide financial guidance to individuals and businesses."),
  ("Sales Manager", "Lead a team of sales representatives and set sales goals."),
  ("Customer Success Manager", "Ensure customers get the most value from a product or service."),
  ("Lab Technician", "Perform tests and procedures in a laboratory setting."),
  ("Physical Therapist", "Help patients recover from injuries and illnesses."),
  ("Biomedical Engineer", "Design and develop medical devices and equipment."),
  ("Curriculum Developer", "Create educational materials and learning experiences."),
  ("Corporate Trainer", "Teach employees skills and knowledge relevant to their jobs."),
  ("Operations Manager", "Oversee the production of goods and services in an organization."),
  ("Content Strategist", "Plan, develop, and manage content to meet business goals."),
  ("Social Media Manager", "Manage social media accounts and create engaging content."),
  ("Brand Manager", "Develop and maintain the public image of a company or product."),
  ("Counselor", "Help individuals deal with mental health and emotional issues."),
  ("Community Organizer", "Work with community members to address local issues."),
  ("Non-profit Manager", "Oversee the operations of a non-profit organization."),
  ("Public Relations Specialist", "Manage the public image of an organization or individual."),
  ("Market Research Analyst", "Study market conditions to examine potential sales of products or services."),
  ("Academic Researcher", "Conduct research in an academic setting to advance knowledge."),
  ("UX Researcher", "Study user behavior to inform product design and development."),
  ("Account Executive", "Manage client relationships and drive sales."),
  ("Business Development Manager", "Identify new business opportunities and build relationships."),
  ("Sales Representative", "Sell products or services to customers."),
  ("Customer Experience Manager", "Oversee and improve the overall customer experience."),
  ("Client Relations Manager", "Maintain and develop relationships with clients."),
  ("Support Specialist", "Provide technical support to customers."),
  ("Team Lead", "Lead a team of employees and oversee their work."),
  ("Department Manager", "Manage a specific department within an organization."),
  ("Director", "Oversee a major function or division of an organization."),
  ("Executive", "Make high-level decisions that affect the entire organization."),
  ("Copywriter", "Write compelling text for marketing and advertising purposes."),
  ("Editor", "Review and revise content for publication."),
  ("Motivational Speaker", "Deliver speeches to inspire and motivate audiences."),
  ("Web Developer", "Build and maintain websites and web applications."),
  ("Product Designer", "Design products that are both functional and aesthetically pleasing.")]

/-- The career description attached to a retained candidate, with the
generic fallback of chatbot.py line 741. -/
def descriptionFor (career : String) : String :=
  (descriptions.lookup career).getD "A professional role in your field of interest."

/-- The `skills_map` dict of `get_key_skills_for_career` (chatbot.py lines 756-818). -/
def skills_map : List (String × List String) := [
  ("Software Developer", ["Programming", "Problem Solving", "Attention to Detail", "Teamwork"]),
  ("Data Scientist", ["Data Analysis", "Statistics", "Machine Learning", "Communication"]),
  ("UX/UI Designer", ["Design Principles", "User Research", "Prototyping", "Communication"]),
  ("Project Manager", ["Planning", "Risk Management", "Communication", "Leadership"]),
  ("Product Manager", ["Market Research", "Strategic Thinking", "Communication", "Leadership"]),
  ("Business Analyst", ["Critical Thinking", "Data Analysis", "Communication", "Problem Solving"]),
  ("Marketing Manager", ["Market Research", "Strategic Planning", "Communication", "Creativity"]),
  ("Financial Analyst", ["Financial Modeling", "Attention to Detail", "Analytical Thinking", "Communication"]),
  ("Graphic Designer", ["Design Software", "Creativity", "Typography", "Time Management"]),
  ("Technical Writer", ["Writing Skills", "Technical Knowledge", "Attention to Detail", "Communication"]),
  ("Operations Manager", ["Process Optimization", "Leadership", "Problem Solving", "Communication"]),
  ("Healthcare Administrator", ["Healthcare Knowledge", "Management", "Budgeting", "Communication"]),
  ("Teacher", ["Subject Knowledge", "Communication", "Patience", "Classroom Management"]),
  ("Social Worker", ["Empathy", "Communication", "Problem Solving", "Resourcefulness"]),
  ("Accountant", ["Accounting Principles", "Attention to Detail", "Analytical Skills", "Ethics"]),
  ("Mechanical Engineer", ["Engineering Principles", "Problem Solving", "Technical Skills", "Teamwork"]),
  ("Research Scientist", ["Research Methods", "Critical Thinking", "Data Analysis", "Patience"]),
  ("Investment Banker", ["Financial Analysis", "Strategic Thinking", "Communication", "Resilience"]),
  ("Management Consultant", ["Problem Solving", "Analytical Skills", "Communication", "Strategic Thinking"]),
  ("Environmental Scientist", ["Scientific Knowledge", "Data Analysis", "Field Research", "Communication"]),
  ("Registered Nurse", ["Medical Knowledge", "Patient Care", "Communication", "Empathy"]),
  ("Content Creator", ["Creativity", "Content Strategy", "Social Media Knowledge", "Communication"]),
  ("Cybersecurity Analyst", ["Network Security", "Problem Solving", "Attention to Detail", "Communication"]),
  ("IT Manager", ["IT Knowledge", "Management", "Strategic Planning", "Communication"]),
  ("Education Administrator", ["Educational Knowledge", "Management", "Budgeting", "Communication"]),
  ("Art Director", ["Design Principles", "Leadership", "Creativity", "Communication"]),
  ("Civil Engineer", ["Engineering Principles", "Project Management", "Problem Solving", "Attention to Detail"]),
  ("Electrical Engineer", ["Engineering Principles", "Technical Skills", "Problem Solving", "Teamwork"]),
  ("Financial Advisor", ["Financial Knowledge", "Communication", "Sales Skills", "Trustworthiness"]),
  ("Sales Manager", ["Sales Skills", "Leadership", "Communication", "Strategic Thinking"]),
  ("Customer Success Manager", ["Customer Service", "Communication", "Problem Solving", "Relationship Building"]),
  ("Lab Technician", ["Lab Procedures", "Attention to Detail", "Technical Skills", "Documentation"]),
  ("Physical Therapist", ["Medical Knowledge", "Patient Care", "Communication", "Patience"]),
  ("Biomedical Engineer", ["Engineering Principles", "Medical Knowledge", "Problem Solving", "Technical Skills"]),
  ("Curriculum Developer", ["Educational Knowledge", "Content Development", "Research Skills", "Communication"]),
  ("Corporate Trainer", ["Subject Knowledge", "Presentation Skills", "Communication", "Patience"]),
  ("Content Strategist", ["Content Planning", "SEO Knowledge", "Analytics", "Communication"]),
  ("Social Media Manager", ["Social Media Knowledge", "Content Creation", "Analytics", "Communication"]),
  ("Brand Manager", ["Marketing Knowledge", "Strategic Thinking", "Creativity", "Communication"]),
  ("Counselor", ["Psychology Knowledge", "Empathy", "Communication", "Active Listening"]),
  ("Community Organizer", ["Communication", "Leadership", "Problem Solving", "Resourcefulness"]),
  ("Non-profit Manager", ["Management", "Fundraising", "Communication", "Strategic Planning"]),
  ("Public Relations Specialist", ["Communication", "Writing Skills", "Media Relations", "Strategic Thinking"]),
  ("Market Research Analyst", ["Data Analysis", "Research Methods", "Critical Thinking", "Communication"]),
  ("Academic Researcher", ["Research Methods", "Subject Knowledge", "Critical Thinking", "Writing Skills"]),
  ("UX Researcher", ["Research Methods", "User Psychology", "Data Analysis", "Communication"]),
  ("Account Executive", ["Sales Skills", "Communication", "Relationship Building", "Product Knowledge"]),
  ("Business Development Manager", ["Sales Skills", "Strategic Thinking", "Communication", "Networking"]),
  ("Sales Representative", ["Sales Skills", "Communication", "Product Knowledge", "Persistence"]),
  ("Customer Experience Manager", ["Customer Service", "Communication", "Problem Solving", "Analytics"]),
  ("Client Relations Manager", ["Communication", "Relationship Building", "Problem Solving", "Customer Service"]),
  ("Support Specialist", ["Technical Knowledge", "Problem Solving", "Communication", "Patience"]),
  ("Team Lead", ["Leadership", "Communication", "Technical Skills", "Time Management"]),
  ("Department Manager", ["Management", "Strategic Planning", "Communication", "Budgeting"]),
  ("Director", ["Strategic Thinking", "Leadership", "Communication", "Decision Making"]),
  ("Executive", ["Strategic Vision", "Leadership", "Decision Making", "Communication"]),
  ("Copywriter", ["Writing Skills", "Creativity", "Marketing Knowledge", "Attention to Detail"]),
  ("Editor", ["Writing Skills", "Attention to Detail", "Communication", "Time Management"]),
  ("Motivational Speaker", ["Public Speaking", "Communication", "Inspiration", "Storytelling"]),
  ("Web Developer", ["Programming", "Web Technologies", "Problem Solving", "Attention to Detail"]),
  ("Product Designer", ["Design Principles", "User Research", "Prototyping", "Communication"])]

/-- `get_key_skills_for_career` (chatbot.py lines 754-820). -/
def get_key_skills_for_career (career : String) : List String :=
  (skills_map.lookup career).getD ["Communication", "Problem Solving", "Teamwork", "Technical Skills"]

/-- The `salary_map` dict of `get_salary_range_for_career` (chatbot.py lines 824-886). -/
def salary_map : List (String × String) := [
  ("Software Developer", "$70,000 - $150,000"),
  ("Data Scientist", "$85,000 - $170,000"),
  ("UX/UI Designer", "$65,000 - $130,000"),
  ("Project Manager", "$75,000 - $140,000"),
  ("Product Manager", "$85,000 - $160,000"),
  ("Business Analyst", "$65,000 - $120,000"),
  ("Marketing Manager", "$70,000 - $140,000"),
  ("Financial Analyst", "$65,000 - $120,000"),
  ("Graphic Designer", "$45,000 - $85,000"),
  ("Technical Writer", "$55,000 - $100,000"),
  ("Operations Manager", "$70,000 - $130,000"),
  ("Healthcare Administrator", "$75,000 - $140,000"),
  ("Teacher", "$40,000 - $75,000"),
  ("Social Worker", "$45,000 - $75,000"),
  ("Accountant", "$55,000 - $100,000"),
  ("Mechanical Engineer", "$70,000 - $130,000"),
  ("Research Scientist", "$75,000 - $140,000"),
  ("Investment Banker", "$100,000 - $250,000+"),
  ("Management Consultant", "$85,000 - $180,000"),
  ("Environmental Scientist", "$60,000 - $110,000"),
  ("Registered Nurse", "$60,000 - $90,000"),
  ("Content Creator", "$40,000 - $100,000+"),
  ("Cybersecurity Analyst", "$75,000 - $140,000"),
  ("IT Manager", "$85,000 - $150,000"),
  ("Education Administrator", "$70,000 - $130,000"),
  ("Art Director", "$65,000 - $130,000"),
  ("Civil Engineer", "$70,000 - $130,000"),
  ("Electrical Engineer", "$75,000 - $140,000"),
  ("Financial Advisor", "$60,000 - $150,000+"),
  ("Sales Manager", "$75,000 - $150,000+"),
  ("Customer Success Manager", "$65,000 - $120,000"),
  ("Lab Technician", "$40,000 - $70,000"),
  ("Physical Therapist", "$70,000 - $100,000"),
  ("Biomedical Engineer", "$70,000 - $130,000"),
  ("Curriculum Developer", "$60,000 - $100,000"),
  ("Corporate Trainer", "$60,000 - $110,000"),
  ("Content Strategist", "$60,000 - $110,000"),
  ("Social Media Manager", "$50,000 - $90,000"),
  ("Brand Manager", "$75,000 - $140,000"),
  ("Counselor", "$45,000 - $75,000"),
  ("Community Organizer", "$40,000 - $70,000"),
  ("Non-profit Manager", "$60,000 - $100,000"),
  ("Public Relations Specialist", "$50,000 - $90,000"),
  ("Market Research Analyst", "$60,000 - $110,000"),
  ("Academic Researcher", "$60,000 - $120,000"),
  ("UX Researcher", "$70,000 - $130,000"),
  ("Account Executive", "$60,000 - $130,000+"),
  ("Business Development Manager", "$70,000 - $140,000+"),
  ("Sales Representative", "$40,000 - $100,000+"),
  ("Customer Experience Manager", "$70,000 - $120,000"),
  ("Client Relations Manager", "$60,000 - $110,000"),
  ("Support Specialist", "$45,000 - $80,000"),
  ("Team Lead", "$70,000 - $120,000"),
  ("Department Manager", "$80,000 - $150,000"),
  ("Director", "$120,000 - $200,000+"),
  ("Executive", "$150,000 - $300,000+"),
  ("Copywriter", "$50,000 - $90,000"),
  ("Editor", "$55,000 - $95,000"),
  ("Motivational Speaker", "$50,000 - $200,000+"),
  ("Web Developer", "$60,000 - $120,000"),
  ("Product Designer", "$70,000 - $130,000")]

/-- `get_salary_range_for_career` (chatbot.py lines 822-888). -/
def get_salary_range_for_career (career : String) : String :=
  (salary_map.lookup career).getD "$50,000 - $100,000"

/-- The `outlook_map` dict of `get_growth_outlook_for_career` (chatbot.py lines 892-954). -/
def outlook_map : List (String × String) := [
  ("Software Developer", "Excellent (22% growth expected through 2030)"),
  ("Data Scientist", "Excellent (31% growth expected through 2030)"),
  ("UX/UI Designer", "Excellent (13% growth expected through 2030)"),
  ("Project Manager", "Good (7% growth expected through 2030)"),
  ("Product Manager", "Excellent (10% growth expected through 2030)"),
  ("Business Analyst", "Good (7% growth expected through 2030)"),
  ("Marketing Manager", "Good (10% growth expected through 2030)"),
  ("Financial Analyst", "Good (6% growth expected through 2030)"),
  ("Graphic Designer", "Slow (3% growth expected through 2030)"),
  ("Technical Writer", "Good (7% growth expected through 2030)"),
  ("Operations Manager", "Good (7% growth expected through 2030)"),
  ("Healthcare Administrator", "Excellent (32% growth expected through 2030)"),
  ("Teacher", "Average (4% growth expected through 2030)"),
  ("Social Worker", "Excellent (13% growth expected through 2030)"),
  ("Accountant", "Average (4% growth expected through 2030)"),
  ("Mechanical Engineer", "Average (4% growth expected through 2030)"),
  ("Research Scientist", "Good (8% growth expected through 2030)"),
  ("Investment Banker", "Good (6% growth expected through 2030)"),
  ("Management Consultant", "Excellent (14% growth expected through 2030)"),
  ("Environmental Scientist", "Excellent (8% growth expected through 2030)"),
  ("Registered Nurse", "Excellent (9% growth expected through 2030)"),
  ("Content Creator", "Excellent (14% growth expected through 2030)"),
  ("Cybersecurity Analyst", "Excellent (33% growth expected through 2030)"),
  ("IT Manager", "Excellent (11% growth expected through 2030)"),
  ("Education Administrator", "Good (8% growth expected through 2030)"),
  ("Art Director", "Slow (4% growth expected through 2030)"),
  ("Civil Engineer", "Good (8% growth expected through 2030)"),
  ("Electrical Engineer", "Average (3% growth expected through 2030)"),
  ("Financial Advisor", "Excellent (5% growth expected through 2030)"),
  ("Sales Manager", "Good (5% growth expected through 2030)"),
  ("Customer Success Manager", "Excellent (15% growth expected through 2030)"),
  ("Lab Technician", "Average (7% growth expected through 2030)"),
  ("Physical Therapist", "Excellent (21% growth expected through 2030)"),
  ("Biomedical Engineer", "Excellent (6% growth expected through 2030)"),
  ("Curriculum Developer", "Good (7% growth expected through 2030)"),
  ("Corporate Trainer", "Good (9% growth expected through 2030)"),
  ("Content Strategist", "Excellent (10% growth expected through 2030)"),
  ("Social Media Manager", "Excellent (10% growth expected through 2030)"),
  ("Brand Manager", "Good (6% growth expected through 2030)"),
  ("Counselor", "Excellent (23% growth expected through 2030)"),
  ("Community Organizer", "Good (9% growth expected through 2030)"),
  ("Non-profit Manager", "Good (8% growth expected through 2030)"),
  ("Public Relations Specialist", "Good (11% growth expected through 2030)"),
  ("Market Research Analyst", "Excellent (18% growth expected through 2030)"),
  ("Academic Researcher", "Average (5% growth expected through 2030)"),
  ("UX Researcher", "Excellent (14% growth expected through 2030)"),
  ("Account Executive", "Good (6% growth expected through 2030)"),
  ("Business Development Manager", "Good (7% growth expected through 2030)"),
  ("Sales Representative", "Average (2% growth expected through 2030)"),
  ("Customer Experience Manager", "Excellent (15% growth expected through 2030)"),
  ("Client Relations Manager", "Good (6% growth expected through 2030)"),
  ("Support Specialist", "Average (6% growth expected through 2030)"),
  ("Team Lead", "Good (7% growth expected through 2030)"),
  ("Department Manager", "Good (7% growth expected through 2030)"),
  ("Director", "Good (8% growth expected through 2030)"),
  ("Executive", "Good (6% growth expected through 2030)"),
  ("Copywriter", "Slow (2% growth expected through 2030)"),
  ("Editor", "Slow (2% growth expected through 2030)"),
  ("Motivational Speaker", "Good (7% growth expected through 2030)"),
  ("Web Developer", "Excellent (13% growth expected through 2030)"),
  ("Product Designer", "Excellent (13% growth expected through 2030)")]


/-- `get_growth_outlook_for_career` (chatbot.py lines 890-956). -/
def get_growth_outlook_for_career (career : String) : String :=
  (outlook_map.lookup career).getD "Average (5% growth expected through 2030)"

/-- The record appended for one retained candidate (chatbot.py lines
672-750): the score is capped at 95 by `match_percentage = min(95, score)`. -/
def mkRecommendation (career : String) (score : Nat) : Recommendation where
  career := career
  match_percentage := min 95 score
  description := descriptionFor career
  key_skills := get_key_skills_for_career career
  salary_range := get_salary_range_for_career career
  growth_outlook := get_growth_outlook_for_career career

/-- `generate_career_recommendations` (chatbot.py lines 580-752): score the
candidates, sort by score descending (stable), keep the top 5, attach the
profile fields. -/
def generate_career_recommendations (a : AssessmentData) : List Recommendation :=
  ((sortedCareers a).take 5).map (fun p => mkRecommendation p.1 p.2)

/-! ## Keyword classifier (`is_career_related_question`, chatbot.py lines 1065-1087) -/

/-- The fixed domain-keyword vocabulary `career_keywords`
(chatbot.py lines 1067-1084). -/
def career_keywords : List String := [
  "career", "job", "work", "employment", "profession", "occupation",
  "vocation", "resume", "cv", "interview", "hiring", "recruitment",
  "salary", "pay", "wage", "skills", "qualification", "education",
  "training", "development", "promotion", "industry", "field", "sector",
  "company", "organization", "business", "enterprise", "networking", "professional",
  "expertise", "experience", "background", "path", "advancement", "growth",
  "opportunity", "position", "role", "title", "function", "department",
  "team", "management", "leadership", "supervisor", "boss", "colleague",
  "workplace", "environment", "culture", "benefits", "perks", "flexibility",
  "remote", "freelance", "contract", "full-time", "part-time", "internship",
  "apprenticeship", "entrepreneur", "startup", "business owner", "self-employed", "consultant",
  "coach", "mentor", "advisor", "guidance", "counseling", "planning",
  "strategy", "goal", "objective", "ambition", "aspiration", "dream",
  "passion", "interest", "strength", "weakness", "challenge", "obstacle",
  "solution", "advice", "recommendation", "suggestion", "tip", "hint",
  "best practice", "technique", "method", "approach", "tool", "resource",
  "platform", "website", "course", "certification", "degree", "diploma",
  "certificate", "license", "accreditation", "recognition", "award"]
/-- Substring containment on character lists: models the Python operator
`keyword in prompt_lower` (chatbot.py line 1087). -/
def containsSub (hay needle : List Char) : Bool :=
  match hay with
  | [] => needle.isEmpty
  | c :: t => needle.isPrefixOf (c :: t) || containsSub t needle

/-- `is_career_related_question` (chatbot.py lines 1065-1087): lower-case
the prompt and test whether any keyword of the fixed vocabulary occurs in
it as a substring.  `str.lower()` is modelled by `Char.toLower` (ASCII
lowering). -/
def is_career_related_question (prompt : String) : Bool :=
  let prompt_lower := prompt.data.map Char.toLower
  career_keywords.any (fun keyword => containsSub prompt_lower keyword.data)

/-! ## Streaming relay (`get_ollama_response_stream`, chatbot.py lines 1089-1151)

The generator body is modelled as a function of a simulated endpoint
behaviour.  One line read from the streaming body either parses as a JSON
record (whose optional `response` field is the text fragment) or fails to
parse (`json.JSONDecodeError`). -/

/-- One line of the streaming response body, as seen after
`json.loads(line.decode("utf-8"))` (chatbot.py line 1139): either a parsed
record with the value of its `response` field (`none` when the field is
absent, in which case `data.get("response", "")` yields `""`), or a line
that raises `JSONDecodeError`. -/
inductive LineItem where
  | parsed (resp : Option String)
  | malformed
deriving DecidableEq, Repr

/-- The behaviour of the simulated Ollama endpoint for one request:
either the connect/request/getresponse step raises (connection refused or
timeout, carrying `str(e)`), or a response arrives with a status code, the
lines readable before EOF, and optionally an exception raised by
`res.readline()` after those lines (a mid-stream timeout or connection
drop, carrying `str(e)`). -/
inductive Endpoint where
  | connFail (err : String)
  | ok (status : Nat) (lines : List LineItem) (readErr : Option String)
deriving DecidableEq, Repr

/-- The text fragment emitted for one line, if any (chatbot.py lines
1137-1145): a malformed line is skipped, a parsed record's fragment
`chunk = data.get("response", "")` is yielded only when `if chunk:` holds,
i.e. when it is non-empty. -/
def chunkOfLine : LineItem → Option String
  | .parsed (some s) => if s = "" then none else some s
  | .parsed none => none
  | .malformed => none

/-- The diagnostic chunk for a non-success status (chatbot.py line 1147). -/
def statusMsg (status : Nat) : String :=
  "⚠️ Error: Received status code " ++ toString status ++ " from Ollama"

/-- The diagnostic chunk yielded by the `except Exception` handler
(chatbot.py line 1151). -/
def connFailMsg (err : String) : String :=
  "⚠️ Could not connect to Ollama. Make sure it is running. Error: " ++ err

/-- The chunk sequence produced by `get_ollama_response_stream` when the
caller drives the generator to exhaustion (chatbot.py lines 1120-1151):
on status 200 the non-empty fragments of the parseable lines, in arrival
order, followed by one diagnostic chunk if an exception interrupts the
read; on any other status exactly one diagnostic chunk naming the status;
on a connection failure exactly one diagnostic chunk carrying the error.
The in-domain gate of lines 1092-1094 is upstream of this model. -/
def relayChunks (ep : Endpoint) : List String :=
  match ep with
  | .connFail err => [connFailMsg err]
  | .ok status lines readErr =>
    if status = 200 then
      lines.filterMap chunkOfLine ++
        (match readErr with
         | some err => [connFailMsg err]
         | none => [])
    else [statusMsg status]

/-- Observable events of one generator run: the connection being
established (`conn.request`/`conn.getresponse` succeeding), a chunk being
yielded, and `conn.close()` running. -/
inductive Ev where
  | connect
  | chunk (s : String)
  | close
deriving DecidableEq, Repr

/-- The event trace of the generator body when the caller drives it to
exhaustion (chatbot.py lines 1120-1151).  `conn.close()` (line 1149) sits
at the end of the `try` body: it runs after normal EOF and after the
non-success diagnostic, but an exception during `res.readline()` jumps to
the `except Exception` handler (line 1150), which yields its diagnostic
and returns without closing the connection. -/
def relayEventsFull (ep : Endpoint) : List Ev :=
  match ep with
  | .connFail err => [.chunk (connFailMsg err)]
  | .ok status lines readErr =>
    .connect ::
      (if status = 200 then
        (lines.filterMap chunkOfLine).map Ev.chunk ++
          (match readErr with
           | some err => [.chunk (connFailMsg err)]
           | none => [.close])
      else [.chunk (statusMsg status), .close])

/-- Truncate a trace to what actually runs when the caller abandons the
generator after consuming `k` chunks.  Abandoning a suspended generator
raises `GeneratorExit` at the `yield` where it is suspended; the function
has no `try/finally`, and `except Exception` does not catch
`GeneratorExit` (a `BaseException`), so nothing after that yield runs.
With `k = 0` the generator body never starts. -/
def cutChunks : Nat → List Ev → List Ev
  | _, [] => []
  | 0, _ :: _ => []
  | k + 1, e :: evs =>
    match e with
    | .chunk s => if k = 0 then [Ev.chunk s] else Ev.chunk s :: cutChunks k evs
    | _ => e :: cutChunks (k + 1) evs

/-- The event trace of one run of `get_ollama_response_stream`: `budget =
none` means the caller drives the sequence to exhaustion, `budget = some
k` means the caller abandons (closes) the generator after consuming `k`
chunks. -/
def relayTrace (ep : Endpoint) (budget : Option Nat) : List Ev :=
  match budget with
  | none => relayEventsFull ep
  | some k => cutChunks k (relayEventsFull ep)

/-! ## Conversation context builder (chatbot.py lines 1096-1118; the same
code is inlined at lines 1478-1500 of `display_chat_interface`) -/

/-- One entry of `st.session_state.messages`: a dict with a `role` and a
`content` string.  The latency measurement optionally stored with
assistant turns does not enter the prompt and is not modelled. -/
structure Msg where
  role : String
  content : String
deriving DecidableEq, Repr

/-- The fixed `system_prompt` (chatbot.py lines 1100-1107), a triple-quoted
literal whose continuation lines carry the source's four-space
indentation. -/
def system_prompt : String :=
  "You are an AI Career Mentor, an expert in career guidance, job market trends, skill development, and professional growth. \n" ++
  "    Your role is to provide personalized career advice ONLY on career-related topics.\n" ++
  "    \n" ++
  "    STRICTLY FOCUS ON CAREER-RELATED QUESTIONS. If a user asks about non-career topics, politely redirect them to ask career-related questions.\n" ++
  "    \n" ++
  "    Provide thoughtful, detailed, and actionable career advice.\n" ++
  "    Focus on practical steps, skill development opportunities, career paths, and industry insights.\n" ++
  "    Be encouraging but realistic about career prospects and requirements."

/-- The role-labelled line contributed by one prior turn (chatbot.py lines
1111-1115): `"User: <content>\n"` for a user turn, `"Career Mentor:
<content>\n"` for an assistant turn, nothing for any other role tag. -/
def renderMsg (m : Msg) : String :=
  if m.role = "user" then "User: " ++ m.content ++ "\n"
  else if m.role = "assistant" then "Career Mentor: " ++ m.content ++ "\n"
  else ""

/-- The concatenation of the rendered turns, in original order. -/
def renderAll : List Msg → String
  | [] => ""
  | m :: ms => renderMsg m ++ renderAll ms

/-- The `full_prompt` assembly (chatbot.py lines 1110-1118): the system
preamble, a blank separator, one labelled line per prior turn in original
order (no truncation), the new user line, and the trailing cue
`"Career Mentor:"`. -/
def build_full_prompt (messages : List Msg) (prompt : String) : String :=
  let init := system_prompt ++ "\n\n"
  let withHistory := messages.foldl (fun acc m =>
    if m.role = "user" then acc ++ ("User: " ++ m.content ++ "\n")
    else if m.role = "assistant" then acc ++ ("Career Mentor: " ++ m.content ++ "\n")
    else acc) init
  withHistory ++ ("User: " ++ prompt ++ "\nCareer Mentor:")

/-! ## Resume analysis extractor (`analyze_resume`, chatbot.py lines 284-314)

The extraction logic applied to the raw model text: find a fenced
` ```json ... ``` ` block (the non-greedy `re.search` of line 287), else
scan from the first `\x7b` to the last `\x7d` (lines 292-295), then
`json.loads` the span, falling back to a fixed record on any parse
failure.  `json.loads` is modelled by a recursive-descent parser covering
objects, arrays, strings with the single-character escapes, integer
numbers, and the three literals; the claims below only exercise inputs
inside this subset. -/

/-- A parsed JSON value. -/
inductive Json where
  | null
  | bool (b : Bool)
  | num (n : Int)
  | str (s : String)
  | arr (elems : List Json)
  | obj (fields : List (String × Json))

/-- JSON inter-token whitespace. -/
def isJsonWs (c : Char) : Bool := c = ' ' || c = '\t' || c = '\n' || c = '\r'

/-- The single-character string escapes of JSON. -/
def parseEscape (c : Char) : Option Char :=
  if c = '\"' then some '\"'
  else if c = '\\' then some '\\'
  else if c = '/' then some '/'
  else if c = 'b' then some '\x08'
  else if c = 'f' then some '\x0c'
  else if c = 'n' then some '\n'
  else if c = 'r' then some '\r'
  else if c = 't' then some '\t'
  else none

/-- Parse the body of a JSON string after the opening quote; returns the
decoded characters and the remainder after the closing quote. -/
def parseStringBody : List Char → Option (List Char × List Char)
  | [] => none
  | c :: rest =>
    if c = '\"' then some ([], rest)
    else if c = '\\' then
      match rest with
      | [] => none
      | e :: rest2 =>
        match parseEscape e with
        | some d =>
          match parseStringBody rest2 with
          | some (body, rem) => some (d :: body, rem)
          | none => none
        | none => none
    else
      match parseStringBody rest with
      | some (body, rem) => some (c :: body, rem)
      | none => none

/-- The numeric value of a digit run. -/
def natOfDigits (ds : List Char) : Nat :=
  ds.foldl (fun n c => 10 * n + (c.toNat - 48)) 0

/-- Parse a JSON integer (optional minus sign, digit run not followed by a
fraction or exponent). -/
def parseIntToken (cs : List Char) : Option (Int × List Char) :=
  let core := fun (ds : List Char) (rem : List Char) =>
    if ds = [] then none
    else match rem with
      | [] => some rem
      | c :: _ => if c = '.' || c = 'e' || c = 'E' then none else some rem
  match cs with
  | '-' :: rest =>
    let (ds, rem) := rest.span (fun c => c.isDigit)
    match core ds rem with
    | some rem => some (-(natOfDigits ds : Int), rem)
    | none => none
  | _ =>
    let (ds, rem) := cs.span (fun c => c.isDigit)
    match core ds rem with
    | some rem => some ((natOfDigits ds : Int), rem)
    | none => none

mutual

/-- Parse one JSON value (fuel-indexed recursive descent). -/
def parseValue : Nat → List Char → Option (Json × List Char)
  | 0, _ => none
  | fuel + 1, cs =>
    let cs := cs.dropWhile isJsonWs
    match cs with
    | [] => none
    | c :: rest =>
      if c = '\"' then
        match parseStringBody rest with
        | some (body, rem) => some (.str (String.mk body), rem)
        | none => none
      else if c = '\x7b' then
        match parseObjFields fuel rest true with
        | some (fields, rem) => some (.obj fields, rem)
        | none => none
      else if c = '[' then
        match parseArrElems fuel rest true with
        | some (elems, rem) => some (.arr elems, rem)
        | none => none
      else if "true".data.isPrefixOf cs then some (.bool true, cs.drop 4)
      else if "false".data.isPrefixOf cs then some (.bool false, cs.drop 5)
      else if "null".data.isPrefixOf cs then some (.null, cs.drop 4)
      else
        match parseIntToken cs with
        | some (n, rem) => some (.num n, rem)
        | none => none

/-- Parse the members of a JSON object after the opening brace (or after a
comma when `first = false`); returns the fields and the remainder after
the closing brace. -/
def parseObjFields : Nat → List Char → Bool → Option (List (String × Json) × List Char)
  | 0, _, _ => none
  | fuel + 1, cs, first =>
    let cs := cs.dropWhile isJsonWs
    match cs with
    | [] => none
    | c :: rest =>
      if first ∧ c = '\x7d' then some ([], rest)
      else if c = '\"' then
        match parseStringBody rest with
        | some (key, rem1) =>
          match rem1.dropWhile isJsonWs with
          | ':' :: rem2 =>
            match parseValue fuel rem2 with
            | some (v, rem3) =>
              match rem3.dropWhile isJsonWs with
              | ',' :: rem4 =>
                match parseObjFields fuel rem4 false with
                | some (fields, rem5) => some ((String.mk key, v) :: fields, rem5)
                | none => none
              | '\x7d' :: rem4 => some ([(String.mk key, v)], rem4)
              | _ => none
            | none => none
          | _ => none
        | none => none
      else none

/-- Parse the elements of a JSON array after the opening bracket (or after
a comma when `first = false`); returns the elements and the remainder
after the closing bracket. -/
def parseArrElems : Nat → List Char → Bool → Option (List Json × List Char)
  | 0, _, _ => none
  | fuel + 1, cs, first =>
    let cs' := cs.dropWhile isJsonWs
    match cs' with
    | ']' :: rest => if first then some ([], rest) else none
    | _ =>
      match parseValue fuel cs with
      | some (v, rem) =>
        match rem.dropWhile isJsonWs with
        | ',' :: rem2 =>
          match parseArrElems fuel rem2 false with
          | some (elems, rem3) => some (v :: elems, rem3)
          | none => none
        | ']' :: rem2 => some ([v], rem2)
        | _ => none
      | none => none

end

/-- `json.loads` on a whole string: one value, nothing but whitespace
after it. -/
def json_loads (s : String) : Option Json :=
  match parseValue (s.length + 1) s.data with
  | some (v, rem) => if rem.dropWhile isJsonWs = [] then some v else none
  | none => none

/-- Python `str.find` for a single character: first index or `-1`. -/
def pyFind (cs : List Char) (c : Char) : Int :=
  match cs.findIdx? (fun x => x == c) with
  | some i => (i : Int)
  | none => -1

/-- Python `str.rfind` for a single character: last index or `-1`. -/
def pyRfind (cs : List Char) (c : Char) : Int :=
  match cs.reverse.findIdx? (fun x => x == c) with
  | some j => (cs.length : Int) - 1 - j
  | none => -1

/-- The whitespace set of Python `str.strip()`. -/
def isPyWs (c : Char) : Bool :=
  c = ' ' || c = '\t' || c = '\n' || c = '\r' || c = '\x0b' || c = '\x0c'

/-- Python `str.strip()`: drop whitespace from both ends. -/
def pyStrip (cs : List Char) : List Char :=
  ((cs.dropWhile isPyWs).reverse.dropWhile isPyWs).reverse

/-- First index at which `pat` occurs in `hay` as a contiguous block. -/
def firstOccur (hay pat : List Char) : Option Nat :=
  match hay with
  | [] => if pat.isEmpty then some 0 else none
  | c :: t =>
    if pat.isPrefixOf (c :: t) then some 0 else (firstOccur t pat).map (· + 1)

/-- The fenced-block opener matched by `re.search(r'```json(.*?)```', ...)`
(chatbot.py line 287). -/
def fenceOpen : List Char := "```json".data

/-- The fence delimiter closing the non-greedy group. -/
def fenceClose : List Char := "```".data

/-- The brace-scan fallback (chatbot.py lines 292-297): `start_idx =
response_text.find('\x7b')`, `end_idx = response_text.rfind('\x7d') + 1`,
and the span `response_text[start_idx:end_idx]` when `start_idx != -1 and
end_idx != -1`; `none` models the `raise ValueError` path.  (When the text
has no closing brace, `end_idx` is `0`, not `-1`, so the guard only ever
fails through `start_idx`.) -/
def braceSpan (cs : List Char) : Option (List Char) :=
  let start_idx := pyFind cs '\x7b'
  let end_idx := pyRfind cs '\x7d' + 1
  if start_idx ≠ -1 ∧ end_idx ≠ -1 then
    some ((cs.drop start_idx.toNat).take (end_idx.toNat - start_idx.toNat))
  else none

/-- The `json_text` selected by `analyze_resume` (chatbot.py lines
286-297): the stripped group of the first fenced block if the non-greedy
pattern matches, else the brace span.  The pattern matches exactly when a
`` ``` `` occurs after the end of the first `` ```json ``; occurrences of
`` ```json `` cannot overlap, so when no `` ``` `` follows the first one
no later occurrence can match either. -/
def extract_json_text (response_text : String) : Option (List Char) :=
  let cs := response_text.data
  match firstOccur cs fenceOpen with
  | some i =>
    let rest := cs.drop (i + 7)
    match firstOccur rest fenceClose with
    | some j => some (pyStrip (rest.take j))
    | none => braceSpan cs
  | none => braceSpan cs

/-- The fixed fallback record returned when no JSON could be recovered
(chatbot.py lines 305-314). -/
def fallback_analysis : Json :=
  .obj [
    ("overall_score", .num 50),
    ("strengths", .arr [.str "Unable to analyze strengths"]),
    ("improvements", .arr [.str "Unable to analyze improvements"]),
    ("skills", .obj [("technical", .arr []), ("soft", .arr [])]),
    ("experience_level", .str "Unknown"),
    ("career_suggestions", .arr [.str "Unable to suggest careers"]),
    ("keywords_to_add", .arr []),
    ("formatting_feedback", .str "Unable to analyze formatting")]

/-- The structured record extracted from the raw model text (chatbot.py
lines 284-314): parse the selected span, falling back to
`fallback_analysis` when no span exists (`ValueError`) or the span does
not parse (`json.JSONDecodeError`). -/
def analyze_resume_extract (response_text : String) : Json :=
  match extract_json_text response_text with
  | none => fallback_analysis
  | some jt =>
    match json_loads (String.mk jt) with
    | some v => v
    | none => fallback_analysis

/-- Reading one field of the returned record (the caller indexes the dict,
e.g. `analysis["overall_score"]`). -/
def getField (j : Json) (k : String) : Option Json :=
  match j with
  | .obj fields => fields.lookup k
  | _ => none

/-! ## Example inputs used by the witnesses -/

/-- An assessment with nothing selected. -/
def aEmpty : AssessmentData :=
  ⟨[], [], "Hybrid", "Medium Team (6-15)", "Work-Life Balance", "Neutral"⟩

/-- The first recommendation produced for `aEmpty`. -/
def recPM : Recommendation := mkRecommendation "Project Manager" 50

/-! ## Helper lemmas -/

/-- Every candidate score is at least the base score 50: the four
adjustments only add. -/
theorem scoreCareer_ge (a : AssessmentData) (c : String) : 50 ≤ scoreCareer a c := by
  unfold scoreCareer; omega

/-- A pair of the score table carries the score of its career. -/
theorem mem_careerScores_score (a : AssessmentData) (p : String × Nat)
    (hp : p ∈ careerScores a) : p.2 = scoreCareer a p.1 := by
  obtain ⟨c, _, rfl⟩ := List.mem_map.mp hp
  rfl

/-- Sorting permutes the score table. -/
theorem sortedCareers_perm (a : AssessmentData) :
    (sortedCareers a).Perm (careerScores a) :=
  List.perm_insertionSort scoreRel (careerScores a)

/-- The sorted table is non-increasing by score. -/
theorem sortedCareers_sorted (a : AssessmentData) :
    (sortedCareers a).Pairwise scoreRel :=
  List.sorted_insertionSort scoreRel (careerScores a)

/-- Inserting a pair does not disturb the relative order of the pairs with
any given score: the pairs it passes over all have strictly larger
scores. -/
theorem filter_orderedInsert (s : Nat) (p : String × Nat) (l : List (String × Nat)) :
    ((l.orderedInsert scoreRel p).filter (fun q => q.2 == s)) =
      if p.2 = s then p :: l.filter (fun q => q.2 == s)
      else l.filter (fun q => q.2 == s) := by
  induction l with
  | nil =>
    by_cases h : p.2 = s <;> simp [List.orderedInsert, List.filter_cons, h]
  | cons b t ih =>
    by_cases hrel : scoreRel p b
    · simp only [List.orderedInsert, if_pos hrel, List.filter_cons]
      by_cases hp : p.2 = s <;> by_cases hb : b.2 = s <;> simp [hp, hb]
    · simp only [List.orderedInsert, if_neg hrel, List.filter_cons, ih]
      unfold scoreRel at hrel
      by_cases hp : p.2 = s <;> by_cases hb : b.2 = s <;> first
      | (simp [hp, hb]; omega)
      | simp [hp, hb]

/-- Stability of the sort: the pairs carrying any given score appear in
the sorted table in exactly their original order. -/
theorem filter_insertionSort (s : Nat) (l : List (String × Nat)) :
    ((l.insertionSort scoreRel).filter (fun q => q.2 == s)) =
      l.filter (fun q => q.2 == s) := by
  induction l with
  | nil => rfl
  | cons b t ih =>
    simp only [List.insertionSort]
    rw [filter_orderedInsert, ih, List.filter_cons]
    by_cases hb : b.2 = s <;> simp [hb]

/-- Both score bounds, for every produced recommendation. -/
theorem recommendation_bounds (a : AssessmentData) :
    ∀ r ∈ generate_career_recommendations a,
      50 ≤ r.match_percentage ∧ r.match_percentage ≤ 95 := by
  intro r hr
  obtain ⟨p, hp, rfl⟩ := List.mem_map.mp hr
  have hp1 : p ∈ sortedCareers a := List.mem_of_mem_take hp
  have hp2 : p ∈ careerScores a := (sortedCareers_perm a).mem_iff.mp hp1
  have hsc := mem_careerScores_score a p hp2
  refine ⟨?_, min_le_left _ _⟩
  show 50 ≤ min 95 p.2
  refine le_min_iff.mpr ⟨by omega, ?_⟩
  rw [hsc]
  exact scoreCareer_ge a p.1

/-- The non-empty fragments of a run of well-formed lines are all
emitted, in order. -/
theorem filterMap_parsed_fragments (frags : List String) (h : ∀ f ∈ frags, f ≠ "") :
    (frags.map (fun f => LineItem.parsed (some f))).filterMap chunkOfLine = frags := by
  induction frags with
  | nil => rfl
  | cons f fs ih =>
    simp only [List.map_cons, List.filterMap_cons, chunkOfLine]
    rw [if_neg (h f (List.mem_cons_self f fs))]
    rw [ih (fun g hg => h g (List.mem_cons_of_mem f hg))]

/-- Folding the history accumulation is the same as appending the
rendered turns. -/
theorem foldl_render (l : List Msg) (init : String) :
    (l.foldl (fun acc m =>
      if m.role = "user" then acc ++ ("User: " ++ m.content ++ "\n")
      else if m.role = "assistant" then acc ++ ("Career Mentor: " ++ m.content ++ "\n")
      else acc) init) = init ++ renderAll l := by
  induction l generalizing init with
  | nil => simp [renderAll, String.append_empty]
  | cons m ms ih =>
    simp only [List.foldl_cons, renderAll, ih]
    unfold renderMsg
    by_cases h1 : m.role = "user"
    · rw [if_pos h1, if_pos h1, String.append_assoc]
    · rw [if_neg h1, if_neg h1]
      by_cases h2 : m.role = "assistant"
      · rw [if_pos h2, if_pos h2, String.append_assoc]
      · rw [if_neg h2, if_neg h2, String.empty_append]

/-- `containsSub` decides substring containment. -/
theorem containsSub_iff (hay needle : List Char) :
    containsSub hay needle = true ↔ needle <:+: hay := by
  induction hay with
  | nil => simp [containsSub, List.isEmpty_iff, List.infix_nil]
  | cons c t ih =>
    simp only [containsSub, Bool.or_eq_true, List.isPrefixOf_iff_prefix, ih,
      List.infix_cons_iff]

/-! ## The claims -/

/-- C1: for every assessment input, every entry of
`generate_career_recommendations` has its match percentage at most 95
(the percentages are naturals, so they lie in [0, 95]), the list has at
most 5 entries, and the entries are sorted non-increasing by match
percentage. -/
theorem scorer_output_bounded_short_sorted (a : AssessmentData) :
    (generate_career_recommendations a).length ≤ 5 ∧
    (∀ r ∈ generate_career_recommendations a, r.match_percentage ≤ 95) ∧
    (generate_career_recommendations a).Pairwise
      (fun r1 r2 => r2.match_percentage ≤ r1.match_percentage) := by
  refine ⟨?_, ?_, ?_⟩
  · simp only [generate_career_recommendations, List.length_map, List.length_take]
    exact min_le_left _ _
  · intro r hr
    exact (recommendation_bounds a r hr).2
  · have hs : ((sortedCareers a).take 5).Pairwise scoreRel :=
      (sortedCareers_sorted a).sublist (List.take_sublist 5 _)
    unfold generate_career_recommendations
    rw [List.pairwise_map]
    exact hs.imp (fun h => min_le_min (le_refl 95) h)

/-- C1 witness: at the all-default assessment, the output has at most 5
entries and its first entry's percentage is at most 95. -/
theorem scorer_output_bounded_short_sorted_witness :
    (generate_career_recommendations aEmpty).length ≤ 5 ∧
    recPM.match_percentage ≤ 95 :=
  ⟨(scorer_output_bounded_short_sorted aEmpty).1,
   (scorer_output_bounded_short_sorted aEmpty).2.1 recPM (by decide)⟩

/-- C2: on a non-success status the relay's chunk sequence is exactly one
diagnostic chunk naming the status code; on a connection failure or
timeout it is exactly one diagnostic chunk carrying the failure text; the
model is a total function, so nothing escapes the boundary. -/
theorem relay_error_single_diagnostic (status : Nat) (lines : List LineItem)
    (readErr : Option String) (err : String) :
    (status ≠ 200 → relayChunks (.ok status lines readErr) = [statusMsg status]) ∧
    relayChunks (.connFail err) = [connFailMsg err] ∧
    (∃ u v, statusMsg status = u ++ toString status ++ v) ∧
    (∃ u, connFailMsg err = u ++ err) := by
  refine ⟨fun h => ?_, rfl, ?_, ?_⟩
  · simp [relayChunks, h]
  · exact ⟨"⚠️ Error: Received status code ", " from Ollama", rfl⟩
  · exact ⟨"⚠️ Could not connect to Ollama. Make sure it is running. Error: ", rfl⟩

/-- C2 witness: the status-500 endpoint produces exactly the one
diagnostic chunk, and so does a refused connection. -/
theorem relay_error_single_diagnostic_witness :
    relayChunks (.ok 500 [] none) = [statusMsg 500] ∧
    relayChunks (.connFail "connection refused") = [connFailMsg "connection refused"] :=
  ⟨(relay_error_single_diagnostic 500 [] none "connection refused").1 (by decide),
   (relay_error_single_diagnostic 500 [] none "connection refused").2.1⟩

/-- C3: the claim that the connection is released on every exit path
fails on the code.  `conn.close()` sits at the end of the `try` body:
when the caller abandons the generator after one chunk the trace ends
without a close, and when an exception interrupts the streaming read the
`except` handler yields its diagnostic and returns without a close; the
close does happen when the sequence is driven to exhaustion with no read
exception (normal EOF and the non-success-status path). -/
theorem relay_close_missing_on_exit_paths :
    Ev.connect ∈ relayTrace (.ok 200 [.parsed (some "A")] none) (some 1) ∧
    Ev.close ∉ relayTrace (.ok 200 [.parsed (some "A")] none) (some 1) ∧
    Ev.connect ∈ relayTrace (.ok 200 [] (some "timed out")) none ∧
    Ev.close ∉ relayTrace (.ok 200 [] (some "timed out")) none ∧
    Ev.close ∈ relayTrace (.ok 200 [.parsed (some "A")] none) none ∧
    Ev.close ∈ relayTrace (.ok 500 [] none) none := by
  decide

/-- C4: when two candidates receive equal scores, the sorted table keeps
them in the insertion order of the score table (`sorted` is stable), and
sorting permutes the table; the pipeline is a pure function of the
assessment, so the tie-break is deterministic. -/
theorem scorer_tie_break_stable (a : AssessmentData) (s : Nat) :
    (sortedCareers a).Perm (careerScores a) ∧
    ((sortedCareers a).filter (fun q => q.2 == s)) =
      ((careerScores a).filter (fun q => q.2 == s)) :=
  ⟨sortedCareers_perm a, filter_insertionSort s (careerScores a)⟩

/-- C5: with empty interest and skill selections the scorer returns
exactly the four-item default candidate set, every entry scored at least
50. -/
theorem scorer_default_candidates (a : AssessmentData)
    (h1 : a.interests = []) (h2 : a.technical_skills = []) :
    ((generate_career_recommendations a).map Recommendation.career).Perm defaultCareers ∧
    (generate_career_recommendations a).length = 4 ∧
    (∀ r ∈ generate_career_recommendations a, 50 ≤ r.match_percentage) := by
  have hpot : potentialCareers a = [] := by
    simp [potentialCareers, h1, h2]
  have hcand : candidateCareers a = defaultCareers := by
    simp [candidateCareers, hpot]
  have hcs : careerScores a = defaultCareers.map (fun c => (c, scoreCareer a c)) := by
    unfold careerScores
    rw [hcand]
  have hlen : (careerScores a).length = 4 := by
    rw [hcs]; rfl
  have hslen : (sortedCareers a).length = 4 := by
    rw [(sortedCareers_perm a).length_eq, hlen]
  have htake : (sortedCareers a).take 5 = sortedCareers a :=
    List.take_of_length_le (by omega)
  refine ⟨?_, ?_, fun r hr => (recommendation_bounds a r hr).1⟩
  · have e1 : (generate_career_recommendations a).map Recommendation.career
        = (sortedCareers a).map (fun p => p.1) := by
      unfold generate_career_recommendations
      rw [htake, List.map_map]
      rfl
    rw [e1]
    have h2 := (sortedCareers_perm a).map (fun p : String × Nat => p.1)
    rw [hcs, List.map_map] at h2
    simpa using h2
  · unfold generate_career_recommendations
    rw [htake, List.length_map, hslen]

/-- C5 witness: the all-empty assessment produces a permutation of the
default four, of length 4, with both hypotheses discharged by `rfl`. -/
theorem scorer_default_candidates_witness :
    ((generate_career_recommendations aEmpty).map Recommendation.career).Perm defaultCareers ∧
    (generate_career_recommendations aEmpty).length = 4 :=
  ⟨(scorer_default_candidates aEmpty rfl rfl).1,
   (scorer_default_candidates aEmpty rfl rfl).2.1⟩

/-- C6: the classifier answers `true` exactly when some keyword of the
fixed vocabulary occurs as a substring of the lower-cased input; it is a
total function, and with no keyword present it answers `false`. -/
theorem classifier_iff_keyword_substring (p : String) :
    is_career_related_question p = true ↔
      ∃ kw ∈ career_keywords, kw.data <:+: p.data.map Char.toLower := by
  unfold is_career_related_question
  rw [List.any_eq_true]
  constructor
  · rintro ⟨kw, hkw, h⟩
    exact ⟨kw, hkw, (containsSub_iff _ _).mp h⟩
  · rintro ⟨kw, hkw, h⟩
    exact ⟨kw, hkw, (containsSub_iff _ _).mpr h⟩

/-- C7 counterexample: the line `\x7b"response":""\x7d` parses as a record
carrying a `response` text fragment, yet the produced sequence is empty,
not the one-chunk sequence the claim as stated requires: `if chunk:` drops
the empty fragment. -/
theorem relay_empty_fragment_not_emitted :
    relayChunks (.ok 200 [.parsed (some "")] none) = [] ∧
    relayChunks (.ok 200 [.parsed (some "")] none) ≠ [""] := by
  decide

/-- C7 (amended): on a successful streaming read, each line that parses
with a non-empty `response` fragment is emitted as one chunk in arrival
order; a line that fails to parse is silently skipped without disturbing
the rest; the concrete `["A","B"]` run is exact and concatenates to
`"AB"`. -/
theorem relay_fragments_in_order (frags : List String) (l1 l2 : List LineItem) :
    ((∀ f ∈ frags, f ≠ "") →
      relayChunks (.ok 200 (frags.map (fun f => LineItem.parsed (some f))) none) = frags) ∧
    relayChunks (.ok 200 (l1 ++ LineItem.malformed :: l2) none) =
      relayChunks (.ok 200 (l1 ++ l2) none) ∧
    relayChunks (.ok 200 [.parsed (some "A"), .parsed (some "B")] none) = ["A", "B"] ∧
    String.join (relayChunks (.ok 200 [.parsed (some "A"), .parsed (some "B")] none)) = "AB" := by
  refine ⟨fun h => ?_, ?_, rfl, rfl⟩
  · simp only [relayChunks, if_pos rfl, List.append_nil]
    exact filterMap_parsed_fragments frags h
  · simp [relayChunks, List.filterMap_append, List.filterMap_cons, chunkOfLine]

/-- C7 witness: the two-line run emits exactly its fragments. -/
theorem relay_fragments_in_order_witness :
    relayChunks (.ok 200 (["A", "B"].map (fun f => LineItem.parsed (some f))) none) = ["A", "B"] :=
  (relay_fragments_in_order ["A", "B"] [] []).1 (by decide)

/-- C8: the extractor takes the fenced block when one is present (the
spec's sample text yields `overall_score = 80`), falls back to the
first-brace/last-brace span otherwise, and returns the fixed fallback
record with `overall_score = 50` when the span is unparseable or when no
fence and no brace exists at all. -/
theorem extractor_two_tier_fallback (t : String)
    (hfence : firstOccur t.data fenceOpen = none)
    (hbrace : pyFind t.data '\x7b' = -1) :
    getField (analyze_resume_extract "prefix ```json \x7b\"overall_score\": 80\x7d ``` suffix")
        "overall_score" = some (.num 80) ∧
    analyze_resume_extract "The resume looks weak overall." = fallback_analysis ∧
    getField fallback_analysis "overall_score" = some (.num 50) ∧
    getField (analyze_resume_extract "noise \x7b\"overall_score\": 80\x7d trailing")
        "overall_score" = some (.num 80) ∧
    analyze_resume_extract "a \x7b not json \x7d b" = fallback_analysis ∧
    analyze_resume_extract t = fallback_analysis := by
  refine ⟨rfl, rfl, rfl, rfl, rfl, ?_⟩
  have hspan : braceSpan t.data = none := by
    unfold braceSpan
    rw [hbrace]
    simp
  simp [analyze_resume_extract, extract_json_text, hfence, hspan]

/-- C8 witness: a text with no fence and no brace takes the fallback,
with both hypotheses discharged at the concrete input. -/
theorem extractor_two_tier_fallback_witness :
    analyze_resume_extract "The resume looks weak overall." = fallback_analysis :=
  (extractor_two_tier_fallback "The resume looks weak overall." rfl rfl).2.1

/-- C9: the assembled prompt is exactly the fixed system preamble, a
blank separator, every prior turn rendered once as its role-labelled
line in original order with no truncation, the new user line, and the
trailing cue `"Career Mentor:"`; the builder is a pure function, hence
deterministic. -/
theorem context_builder_concatenation (messages : List Msg) (prompt c : String) :
    build_full_prompt messages prompt =
      system_prompt ++ "\n\n" ++ renderAll messages ++
        ("User: " ++ prompt ++ "\nCareer Mentor:") ∧
    renderMsg ⟨"user", c⟩ = "User: " ++ c ++ "\n" ∧
    renderMsg ⟨"assistant", c⟩ = "Career Mentor: " ++ c ++ "\n" := by
  refine ⟨?_, rfl, rfl⟩
  simp only [build_full_prompt]
  rw [foldl_render]

/-- C10: every produced recommendation scores at least 50 — the base
score is 50, the bonuses only add, and the 95 cap keeps the value in
[50, 95]. -/
theorem scorer_scores_ge_fifty (a : AssessmentData) :
    ∀ r ∈ generate_career_recommendations a,
      50 ≤ r.match_percentage ∧ r.match_percentage ≤ 95 :=
  recommendation_bounds a

/-- C10 witness: the first recommendation of the all-default assessment
scores exactly in [50, 95]. -/
theorem scorer_scores_ge_fifty_witness :
    50 ≤ recPM.match_percentage ∧ recPM.match_percentage ≤ 95 :=
  scorer_scores_ge_fifty aEmpty recPM (by decide)

end Chatbot
